import Mathlib

/-!
Verification of the one-image Docker registry in `container/registry_tool.py`.

The Python module builds an immutable registry value (`DockerV2Registry.__init__`
and `DockerV2Registry._blob`) and serves it through `_RegistryHandler._send_blob`.
We embed those functions shallowly:

* the filesystem is a total map `String → String` from a path to the byte
  content of the file at that path, one `Char` per byte (the blob files of this
  program are opened in binary mode and the digest files hold ASCII text, so
  this identification is faithful for both `open(path).read()` and
  `os.path.getsize(path)`);
* `r.Rlocation(os.path.normpath ·)` — runfiles resolution, an external
  collaborator — is an abstract path transformer `rloc : String → String`;
* `hashlib.sha256(·).hexdigest()` is an abstract function
  `sha : String → String` on the manifest bytes;
* `json.dumps(·, separators=(",", ":"))` is embedded as a recursive serializer
  over a JSON value type, including the default `ensure_ascii` string escaping;
* the layer `assert` in `__init__` makes construction fail, so the embedded
  builder returns `Option Registry`, `none` meaning the fatal startup error;
* an HTTP response is abstracted as its status, the two explicitly-sent
  headers, and the optional body.  `send_error(404)` from the Python standard
  library (`BaseHTTPRequestHandler`) is embedded with its documented behaviour:
  it sends `Content-Type: text/html;charset=utf-8`, a `Content-Length`, and —
  for every method except HEAD — the default HTML error page as body.
-/

namespace RegistryTool

/-- `CONFIG_MEDIA_TYPE` from `registry_tool.py`. -/
def CONFIG_MEDIA_TYPE : String := "application/vnd.docker.container.image.v1+json"

/-- `DIFF_MEDIA_TYPE` from `registry_tool.py`. -/
def DIFF_MEDIA_TYPE : String := "application/vnd.docker.image.rootfs.diff.tar"

/-- `MANIFEST_MEDIA_TYPE` from `registry_tool.py`. -/
def MANIFEST_MEDIA_TYPE : String := "application/vnd.docker.distribution.manifest.v2+json"

/-- A JSON value, as handed to `json.dumps`.  Object fields are kept in
insertion order, exactly as Python's (ordered) dicts do. -/
inductive JValue where
  | jnum (n : Nat)
  | jstr (s : String)
  | jobj (fields : List (String × JValue))
  | jarr (elems : List JValue)

/-- One lowercase hexadecimal digit, as produced by Python's `%04x` formatting. -/
def hexDigit (n : Nat) : Char :=
  if n < 10 then Char.ofNat (48 + n) else Char.ofNat (87 + n)

/-- Four lowercase hex digits, the `XXXX` of a `\uXXXX` escape. -/
def hex4 (n : Nat) : List Char :=
  [hexDigit (n / 4096 % 16), hexDigit (n / 256 % 16), hexDigit (n / 16 % 16), hexDigit (n % 16)]

/-- Escaping of a single character in a JSON string literal, following the
default (`ensure_ascii=True`) encoder of Python's `json.dumps`: `"` and `\`
get a backslash escape, the five control characters with short escapes use
them, every other character outside `0x20..0x7e` becomes `\uXXXX` (a surrogate
pair beyond the BMP), and the remaining printable ASCII stays itself. -/
def escapeChar (c : Char) : List Char :=
  if c = '"' then ['\\', '"']
  else if c = '\\' then ['\\', '\\']
  else if c.toNat = 8 then ['\\', 'b']
  else if c.toNat = 9 then ['\\', 't']
  else if c.toNat = 10 then ['\\', 'n']
  else if c.toNat = 12 then ['\\', 'f']
  else if c.toNat = 13 then ['\\', 'r']
  else if c.toNat < 32 ∨ 126 < c.toNat then
    if c.toNat < 65536 then '\\' :: 'u' :: hex4 c.toNat
    else
      ('\\' :: 'u' :: hex4 (55296 + (c.toNat - 65536) / 1024)) ++
        ('\\' :: 'u' :: hex4 (56320 + (c.toNat - 65536) % 1024))
  else [c]

/-- JSON rendering of a string: `json.dumps` on a Python `str`. -/
def encStr (s : String) : String :=
  ⟨'"' :: ((s.data.map escapeChar).flatten ++ ['"'])⟩

mutual

/-- `json.dumps(v, separators=(",", ":"))`: compact separators, no added
whitespace, fields and elements in the order they are stored. -/
def dumps : JValue → String
  | .jnum n => Nat.repr n
  | .jstr s => encStr s
  | .jobj fields => "\x7b" ++ dumpsFields fields ++ "\x7d"
  | .jarr elems => "[" ++ dumpsElems elems ++ "]"

/-- Comma-separated `key:value` rendering of the fields of a JSON object. -/
def dumpsFields : List (String × JValue) → String
  | [] => ""
  | [(k, v)] => encStr k ++ ":" ++ dumps v
  | (k, v) :: rest => encStr k ++ ":" ++ dumps v ++ "," ++ dumpsFields rest

/-- Comma-separated rendering of the elements of a JSON array. -/
def dumpsElems : List JValue → String
  | [] => ""
  | [v] => dumps v
  | v :: rest => dumps v ++ "," ++ dumpsElems rest

end

/-- A blob reference as it appears in the manifest: the dict
`{"mediaType": ..., "digest": ..., "size": ...}` returned by
`DockerV2Registry._blob`. -/
structure BlobRef where
  mediaType : String
  digest : String
  size : Nat
deriving DecidableEq

/-- The value stored in `_registry_blobs` for a digest: the triple
`(media_type, blob_path, size)`. -/
structure BlobEntry where
  mediaType : String
  path : String
  size : Nat
deriving DecidableEq

/-- The JSON value of one blob reference, with the keys in the insertion
order used by `_blob`: `mediaType`, `digest`, `size`. -/
def blobJValue (b : BlobRef) : JValue :=
  .jobj [("mediaType", .jstr b.mediaType), ("digest", .jstr b.digest), ("size", .jnum b.size)]

/-- The JSON value of the manifest, with the keys in the insertion order of
the `OrderedDict` built in `__init__`: `schemaVersion`, `mediaType`,
`config`, `layers`. -/
def manifestJValue (config : BlobRef) (layers : List BlobRef) : JValue :=
  .jobj [("schemaVersion", .jnum 2), ("mediaType", .jstr MANIFEST_MEDIA_TYPE),
    ("config", blobJValue config), ("layers", .jarr (layers.map blobJValue))]

/-- The immutable registry value built by `DockerV2Registry.__init__`:
`_repo`, the structured manifest (config entry and layer list), the blob
lookup dict `_registry_blobs`, `_manifest_data` and `_manifest_digest`. -/
structure Registry where
  repo : String
  config : BlobRef
  layerRefs : List BlobRef
  blobs : List (String × BlobEntry)
  manifestData : String
  manifestDigest : String

/-- Assignment `d[k] = v` on a Python dict represented as an association list
in insertion order: an existing key keeps its position and gets the new
value, a new key is appended at the end. -/
def dictInsert (k : String) (v : BlobEntry) : List (String × BlobEntry) → List (String × BlobEntry)
  | [] => [(k, v)]
  | (k', v') :: rest => if k' = k then (k, v) :: rest else (k', v') :: dictInsert k v rest

/-- Lookup `d[k]` / `k in d` on the same representation. -/
def dictGet (k : String) : List (String × BlobEntry) → Option BlobEntry
  | [] => none
  | (k', v) :: rest => if k' = k then some v else dictGet k rest

/-- The slice `l[::2]`: every other element, starting at index 0. -/
def slice2 : List α → List α
  | [] => []
  | [a] => [a]
  | a :: _ :: rest => a :: slice2 rest

/-- `zip(layers[::2], layers[1::2])`: the `(digest_path, layer_path)` pairs
consumed by the layer loop of `__init__`. -/
def zipPairs (layers : List String) : List (String × String) :=
  (slice2 layers).zip (slice2 (layers.drop 1))

/-- `DockerV2Registry._blob`: read the digest file, prepend `"sha256:"`,
take the size of the content at the blob path, record the entry in the blob
dict and return the manifest reference. -/
def blobStep (fs : String → String) (mediaType blobPath digestPath : String)
    (blobs : List (String × BlobEntry)) : BlobRef × List (String × BlobEntry) :=
  let digest := "sha256:" ++ fs digestPath
  let size := (fs blobPath).length
  (⟨mediaType, digest, size⟩, dictInsert digest ⟨mediaType, blobPath, size⟩ blobs)

/-- The layer loop of `__init__`: for each `(layer_digest_path, layer_path)`
pair, `assert layer_digest_path == layer_path + ".sha256"` (failure is the
fatal `none`), then `_blob(DIFF_MEDIA_TYPE, rloc layer_path, rloc
layer_digest_path)` appends the manifest entry and updates the dict. -/
def addLayers (fs rloc : String → String) :
    List (String × String) → List BlobRef → List (String × BlobEntry) →
    Option (List BlobRef × List (String × BlobEntry))
  | [], lrefs, blobs => some (lrefs, blobs)
  | (dp, lp) :: rest, lrefs, blobs =>
    if dp = lp ++ ".sha256" then
      let rb := blobStep fs DIFF_MEDIA_TYPE (rloc lp) (rloc dp) blobs
      addLayers fs rloc rest (lrefs ++ [rb.1]) rb.2
    else none

/-- `DockerV2Registry.__init__`: build the config blob, consume the layer
list as `zip(layers[::2], layers[1::2])`, serialize the manifest with
`json.dumps(..., separators=(",", ":"))` and digest it.  `none` is the fatal
`AssertionError` of the layer-pairing assert. -/
def build (fs rloc sha : String → String) (repo config_path : String)
    (layers : List String) : Option Registry :=
  let cb := blobStep fs CONFIG_MEDIA_TYPE (rloc config_path) (rloc (config_path ++ ".sha256")) []
  match addLayers fs rloc (zipPairs layers) [] cb.2 with
  | none => none
  | some (lrefs, blobs) =>
    let mdata := dumps (manifestJValue cb.1 lrefs)
    some { repo := repo, config := cb.1, layerRefs := lrefs, blobs := blobs,
           manifestData := mdata, manifestDigest := "sha256:" ++ sha mdata }

/-- An HTTP response, abstracted to its status code, the two headers the
handler sets explicitly, and the optional message body. -/
structure Response where
  status : Nat
  contentType : Option String
  contentLength : Option Nat
  body : Option String
deriving DecidableEq

/-- The default HTML error page that `BaseHTTPRequestHandler.send_error` of
the Python standard library sends for status 404 (`DEFAULT_ERROR_MESSAGE`
instantiated with code 404, message `Not Found`, explanation `Nothing matches
the given URI`).  It is the body of every non-HEAD 404 answer of this
server. -/
def errorBody404 : String :=
  "<!DOCTYPE HTML>\n<html lang=\"en\">\n    <head>\n        <meta charset=\"utf-8\">\n        <title>Error response</title>\n    </head>\n    <body>\n        <h1>Error response</h1>\n        <p>Error code: 404</p>\n        <p>Message: Not Found.</p>\n        <p>Error code explanation: 404 - Nothing matches the given URI.</p>\n    </body>\n</html>\n"

/-- The `error_content_type` of `BaseHTTPRequestHandler`. -/
def errorContentType : String := "text/html;charset=utf-8"

/-- The response produced by `self.send_error(http.HTTPStatus.NOT_FOUND)`:
status 404 with the error page headers, the body being sent for every
method except HEAD. -/
def notFound (head : Bool) : Response :=
  ⟨404, some errorContentType, some errorBody404.length,
    if head then none else some errorBody404⟩

/-- `self.path.rpartition("/")[2]`: everything after the last `/` (the whole
string when there is none). -/
def lastSegment (s : String) : String :=
  ⟨(s.data.reverse.takeWhile (fun c => c ≠ '/')).reverse⟩

/-- Python's `str.startswith`. -/
def pyStartswith (s p : String) : Bool :=
  List.isPrefixOf p.data s.data

/-- `_RegistryHandler._is_manifest`: the path is the manifest path of the
repository referenced by the literal tag `latest` or by the manifest digest. -/
def is_manifest (reg : Registry) (path : String) : Bool :=
  path == "/v2/" ++ reg.repo ++ "/manifests/latest" ||
    path == "/v2/" ++ reg.repo ++ "/manifests/" ++ reg.manifestDigest

/-- `_RegistryHandler._send_blob`: the version probe, the manifest route, the
blob route (path prefix `/v2/{repo}/blobs/sha256:` and final `/`-delimited
segment a key of the blob dict), and the 404 fallthrough, in that order.
HEAD omits every body. -/
def send_blob (reg : Registry) (fs : String → String) (head : Bool) (path : String) : Response :=
  if path = "/v2/" then ⟨200, none, none, none⟩
  else if is_manifest reg path then
    ⟨200, some MANIFEST_MEDIA_TYPE, some reg.manifestData.length,
      if head then none else some reg.manifestData⟩
  else if pyStartswith path ("/v2/" ++ reg.repo ++ "/blobs/sha256:") then
    match dictGet (lastSegment path) reg.blobs with
    | some e => ⟨200, some e.mediaType, some e.size, if head then none else some (fs e.path)⟩
    | none => notFound head
  else notFound head

/-- `_RegistryHandler.do_HEAD`. -/
def do_HEAD (reg : Registry) (fs : String → String) (path : String) : Response :=
  send_blob reg fs true path

/-- `_RegistryHandler.do_GET`. -/
def do_GET (reg : Registry) (fs : String → String) (path : String) : Response :=
  send_blob reg fs false path

/-- Canonical rendering of one blob reference as described by the spec: an
object with the keys `mediaType`, `digest`, `size` in exactly that order,
compact separators, no whitespace. -/
def specBlobJson (b : BlobRef) : String :=
  "\x7b" ++ "\"mediaType\"" ++ ":" ++ encStr b.mediaType ++ "," ++
    "\"digest\"" ++ ":" ++ encStr b.digest ++ "," ++
    "\"size\"" ++ ":" ++ Nat.repr b.size ++ "\x7d"

/-- Comma-separated canonical rendering of the layer list, in caller order. -/
def specLayersJson : List BlobRef → String
  | [] => ""
  | [b] => specBlobJson b
  | b :: rest => specBlobJson b ++ "," ++ specLayersJson rest

/-- Canonical manifest serialization as described by the spec: compact JSON
with the top-level keys `schemaVersion`, `mediaType`, `config`, `layers` in
exactly that order, each blob reference rendered by `specBlobJson`. -/
def specManifestJson (config : BlobRef) (layers : List BlobRef) : String :=
  "\x7b" ++ "\"schemaVersion\"" ++ ":" ++ "2" ++ "," ++
    "\"mediaType\"" ++ ":" ++ encStr MANIFEST_MEDIA_TYPE ++ "," ++
    "\"config\"" ++ ":" ++ specBlobJson config ++ "," ++
    "\"layers\"" ++ ":" ++ "[" ++ specLayersJson layers ++ "]" ++ "\x7d"

/-- A lowercase hexadecimal digit character. -/
def isLowerHex (c : Char) : Bool :=
  ('0' ≤ c ∧ c ≤ '9') ∨ ('a' ≤ c ∧ c ≤ 'f')

/-- Exactly 64 lowercase hex characters. -/
def isHex64 (s : String) : Bool :=
  s.data.length = 64 && s.data.all isLowerHex

/-- A digest string of the form `sha256:` followed by 64 lowercase hex
characters. -/
def isDigestForm (s : String) : Bool :=
  List.isPrefixOf "sha256:".data s.data && isHex64 ⟨s.data.drop 7⟩

/-- The manifest config reference that `build` produces. -/
def configRefOf (fs rloc : String → String) (cp : String) : BlobRef :=
  ⟨CONFIG_MEDIA_TYPE, "sha256:" ++ fs (rloc (cp ++ ".sha256")), (fs (rloc cp)).length⟩

/-- The blob-dict entry of the config blob. -/
def configEntryOf (fs rloc : String → String) (cp : String) : String × BlobEntry :=
  ("sha256:" ++ fs (rloc (cp ++ ".sha256")), ⟨CONFIG_MEDIA_TYPE, rloc cp, (fs (rloc cp)).length⟩)

/-- The manifest reference of one layer pair. -/
def layerRefOf (fs rloc : String → String) (p : String × String) : BlobRef :=
  ⟨DIFF_MEDIA_TYPE, "sha256:" ++ fs (rloc p.1), (fs (rloc p.2)).length⟩

/-- The blob-dict entry of one layer pair. -/
def layerEntryOf (fs rloc : String → String) (p : String × String) : String × BlobEntry :=
  ("sha256:" ++ fs (rloc p.1), ⟨DIFF_MEDIA_TYPE, rloc p.2, (fs (rloc p.2)).length⟩)

/-- A concrete filesystem for witnesses: distinct digest-file and content
values for a config blob `cfg` and one layer blob `l1`. -/
def fsA : String → String := fun p =>
  if p = "cfg" then "xx"
  else if p = "cfg.sha256" then "c1"
  else if p = "l1" then "yyyy"
  else if p = "l1.sha256" then "d1"
  else "zz"

/-- A concrete filesystem whose digest files all hold 64 lowercase hex
characters. -/
def fsB : String → String := fun p =>
  if p = "cfg" then "xx"
  else if p = "l1" then "yyyy"
  else "0123456789abcdef0123456789abcdef0123456789abcdef0123456789abcdef"

/-- The identity runfiles resolution, for witnesses. -/
def rlocA : String → String := fun p => p

/-- A concrete stand-in for the sha256 hex digest, for witnesses. -/
def shaA : String → String := fun _ => "77"

/-- The layer argument list of the witnesses: one `(digest, content)` pair. -/
def layersA : List String := ["l1.sha256", "l1"]

/-- The registry the builder produces from the witness inputs. -/
def regA : Registry :=
  (build fsA rlocA shaA "r" "cfg" layersA).getD ⟨"", ⟨"", "", 0⟩, [], [], "", ""⟩

/-- The registry the builder produces from the hex-digest witness inputs. -/
def regB : Registry :=
  (build fsB rlocA shaA "r" "cfg" layersA).getD ⟨"", ⟨"", "", 0⟩, [], [], "", ""⟩

/-- A filesystem whose digest files hold a value that is not 64 lowercase hex
characters, exercising the unvalidated digest path. -/
def fsZ : String → String := fun _ => "zz"

/-- A second concrete stand-in hash function. -/
def shaZ : String → String := fun _ => "aa"

/-- The registry built from `fsZ` with no layers. -/
def regZ : Registry :=
  (build fsZ rlocA shaZ "r" "c" []).getD ⟨"", ⟨"", "", 0⟩, [], [], "", ""⟩

/-! ## Helper lemmas -/

lemma dumps_blobJValue (b : BlobRef) : dumps (blobJValue b) = specBlobJson b := by
  apply String.ext
  simp only [blobJValue, dumps, dumpsFields, specBlobJson,
    show encStr "mediaType" = "\"mediaType\"" from by decide,
    show encStr "digest" = "\"digest\"" from by decide,
    show encStr "size" = "\"size\"" from by decide,
    String.data_append, List.append_assoc]

lemma dumpsElems_layers : (ls : List BlobRef) → dumpsElems (ls.map blobJValue) = specLayersJson ls
  | [] => rfl
  | [b] => by
    simp only [List.map, dumpsElems, specLayersJson, dumps_blobJValue]
  | b :: c :: rest => by
    have ih := dumpsElems_layers (c :: rest)
    simp only [List.map_cons] at ih ⊢
    simp only [dumpsElems, specLayersJson, dumps_blobJValue, ih]

lemma dumps_manifestJValue (config : BlobRef) (layers : List BlobRef) :
    dumps (manifestJValue config layers) = specManifestJson config layers := by
  apply String.ext
  simp only [manifestJValue, blobJValue, dumps, dumpsFields, specManifestJson, specBlobJson,
    dumpsElems_layers,
    show encStr "schemaVersion" = "\"schemaVersion\"" from by decide,
    show encStr "config" = "\"config\"" from by decide,
    show encStr "layers" = "\"layers\"" from by decide,
    show encStr "mediaType" = "\"mediaType\"" from by decide,
    show encStr "digest" = "\"digest\"" from by decide,
    show encStr "size" = "\"size\"" from by decide,
    show (Nat.repr 2 : String) = "2" from rfl,
    String.data_append, List.append_assoc]

lemma dictInsert_mem :
    ∀ (bs : List (String × BlobEntry)) (q : String × BlobEntry) (k : String) (v : BlobEntry),
      q ∈ dictInsert k v bs → q = (k, v) ∨ q ∈ bs
  | [], q, k, v, h => Or.inl (by simpa [dictInsert] using h)
  | (k', v') :: rest, q, k, v, h => by
    rw [dictInsert] at h
    split at h
    · rcases List.mem_cons.mp h with h | h
      · exact Or.inl h
      · exact Or.inr (List.mem_cons_of_mem _ h)
    · rcases List.mem_cons.mp h with h | h
      · exact Or.inr (h ▸ List.mem_cons_self _ _)
      · rcases dictInsert_mem rest q k v h with h | h
        · exact Or.inl h
        · exact Or.inr (List.mem_cons_of_mem _ h)

lemma foldl_dictInsert_mem (key : String × String → String) (val : String × String → BlobEntry) :
    ∀ (ps : List (String × String)) (bs : List (String × BlobEntry)) (q : String × BlobEntry),
      q ∈ ps.foldl (fun b p => dictInsert (key p) (val p) b) bs →
      q ∈ bs ∨ ∃ p ∈ ps, q = (key p, val p)
  | [], _, _, h => Or.inl h
  | p :: rest, bs, q, h => by
    rcases foldl_dictInsert_mem key val rest (dictInsert (key p) (val p) bs) q h with h | ⟨p', hp', hq⟩
    · rcases dictInsert_mem bs q (key p) (val p) h with h | h
      · exact Or.inr ⟨p, List.mem_cons_self _ _, h⟩
      · exact Or.inl h
    · exact Or.inr ⟨p', List.mem_cons_of_mem _ hp', hq⟩

lemma addLayers_eq (fs rloc : String → String) :
    ∀ (ps : List (String × String)) (lrefs : List BlobRef) (bs : List (String × BlobEntry))
      (out : List BlobRef × List (String × BlobEntry)),
      addLayers fs rloc ps lrefs bs = some out →
      out.1 = lrefs ++ ps.map (layerRefOf fs rloc) ∧
      out.2 = ps.foldl (fun b p =>
        dictInsert ("sha256:" ++ fs (rloc p.1)) ⟨DIFF_MEDIA_TYPE, rloc p.2, (fs (rloc p.2)).length⟩ b) bs ∧
      ∀ p ∈ ps, p.1 = p.2 ++ ".sha256"
  | [], lrefs, bs, out, h => by
    rw [addLayers] at h
    cases h
    simp
  | (dp, lp) :: rest, lrefs, bs, out, h => by
    rw [addLayers] at h
    split at h
    · rename_i hab
      rcases addLayers_eq fs rloc rest _ _ out h with ⟨h1, h2, h3⟩
      refine ⟨?_, ?_, ?_⟩
      · rw [h1]; simp [blobStep, layerRefOf, List.append_assoc]
      · rw [h2]; simp [blobStep]
      · intro p hp
        rcases List.mem_cons.mp hp with he | hm
        · rw [he]; exact hab
        · exact h3 p hm
    · exact absurd h (by simp)

lemma build_spec (fs rloc sha : String → String) (repo cp : String) (layers : List String)
    (reg : Registry) (h : build fs rloc sha repo cp layers = some reg) :
    reg.repo = repo ∧
    reg.config = configRefOf fs rloc cp ∧
    reg.layerRefs = (zipPairs layers).map (layerRefOf fs rloc) ∧
    (∀ q ∈ reg.blobs, q = configEntryOf fs rloc cp ∨ ∃ p ∈ zipPairs layers, q = layerEntryOf fs rloc p) ∧
    (∀ p ∈ zipPairs layers, p.1 = p.2 ++ ".sha256") ∧
    reg.manifestData = dumps (manifestJValue (configRefOf fs rloc cp) reg.layerRefs) ∧
    reg.manifestDigest = "sha256:" ++ sha reg.manifestData := by
  rw [build] at h
  split at h
  · exact absurd h (by simp)
  · rename_i lrefs blobs heq
    rcases addLayers_eq fs rloc _ _ _ _ heq with ⟨h1, h2, h3⟩
    cases h
    replace h1 : lrefs = [] ++ List.map (layerRefOf fs rloc) (zipPairs layers) := h1
    refine ⟨rfl, by simp [blobStep, configRefOf], by simpa using h1, ?_, h3,
      by simp [blobStep, configRefOf, h1], rfl⟩
    intro q hq
    replace hq : q ∈ blobs := hq
    replace h2 : blobs = _ := h2
    rw [h2] at hq
    rcases foldl_dictInsert_mem
      (fun p => "sha256:" ++ fs (rloc p.1))
      (fun p => ⟨DIFF_MEDIA_TYPE, rloc p.2, (fs (rloc p.2)).length⟩) _ _ _ hq with h | ⟨p, hp, hq'⟩
    · left
      simp [blobStep, dictInsert] at h
      simp [configEntryOf, h]
    · right
      exact ⟨p, hp, hq'⟩

lemma addLayers_bad (fs rloc : String → String) :
    ∀ (ps : List (String × String)) (dp lp : String), (dp, lp) ∈ ps → dp ≠ lp ++ ".sha256" →
      ∀ (lrefs : List BlobRef) (bs : List (String × BlobEntry)),
        addLayers fs rloc ps lrefs bs = none
  | [], dp, lp, hmem, _ => absurd hmem (List.not_mem_nil _)
  | (a, b) :: rest, dp, lp, hmem, hne => by
    intro lrefs bs
    rw [addLayers]
    split
    · rename_i hab
      rcases List.mem_cons.mp hmem with he | hm
      · cases he
        exact absurd hab hne
      · exact addLayers_bad fs rloc rest dp lp hm hne _ _
    · rfl

lemma slice2_cons (b : α) (t : List α) : slice2 (b :: t) = b :: slice2 (t.drop 1) := by
  cases t <;> rfl

lemma zipPairs_cons_cons (a b : String) (t : List String) :
    zipPairs (a :: b :: t) = (a, b) :: zipPairs t := by
  show (slice2 (a :: b :: t)).zip (slice2 (b :: t)) = _
  rw [show slice2 (a :: b :: t) = a :: slice2 t from rfl, slice2_cons]
  rfl

lemma zipPairs_length : ∀ (l : List String), (zipPairs l).length = l.length / 2
  | [] => rfl
  | [a] => by simp [zipPairs, slice2]
  | a :: b :: t => by
    rw [zipPairs_cons_cons]
    simp only [List.length_cons, zipPairs_length t]
    omega

lemma zipPairs_dropLast_odd : ∀ (l : List String), l.length % 2 = 1 → zipPairs l = zipPairs l.dropLast
  | [], h => by simp at h
  | [_], _ => rfl
  | a :: b :: t, h => by
    have ht : t.length % 2 = 1 := by simp only [List.length_cons] at h; omega
    have hne : t ≠ [] := by intro e; rw [e] at ht; simp at ht
    rw [List.dropLast_cons₂, List.dropLast_cons_of_ne_nil hne, zipPairs_cons_cons,
      zipPairs_cons_cons, zipPairs_dropLast_odd t ht]

lemma build_congr_pairs (fs rloc sha : String → String) (repo cp : String) {l l' : List String}
    (h : zipPairs l = zipPairs l') :
    build fs rloc sha repo cp l = build fs rloc sha repo cp l' := by
  unfold build
  rw [h]

lemma str_append_assoc (a b c : String) : a ++ b ++ c = a ++ (b ++ c) := by
  apply String.ext
  simp [String.data_append]

lemma append_left_cancel' {s t u : String} (h : s ++ t = s ++ u) : t = u := by
  apply String.ext
  have h2 := congrArg String.data h
  rw [String.data_append, String.data_append] at h2
  exact List.append_cancel_left h2

lemma ne_root_of_long (s : String) (h : 4 < s.data.length) : s ≠ "/v2/" :=
  fun e => absurd (e ▸ h) (by decide)

lemma manifests_latest_ne_root (repo : String) : "/v2/" ++ repo ++ "/manifests/latest" ≠ "/v2/" := by
  apply ne_root_of_long
  simp [String.data_append]

lemma manifests_digest_ne_root (repo d : String) : "/v2/" ++ repo ++ "/manifests/" ++ d ≠ "/v2/" := by
  apply ne_root_of_long
  simp [String.data_append]

lemma blobs_route_ne_root {repo path : String}
    (hp : pyStartswith path ("/v2/" ++ repo ++ "/blobs/sha256:") = true) : path ≠ "/v2/" := by
  intro e
  subst e
  rw [pyStartswith] at hp
  have hle := (List.isPrefixOf_iff_prefix.mp hp).length_le
  rw [String.data_append, String.data_append] at hle
  simp [List.length_append] at hle

lemma not_prefix_blobs_manifests (d : List Char) :
    ¬ ("/blobs/sha256:".data <+: ("/manifests/".data ++ d)) := by
  intro h
  obtain ⟨t, ht⟩ := h
  have h1 := congrArg (fun l => l[1]?) ht
  simp at h1

lemma blobs_route_not_manifest (reg : Registry) (path : String)
    (hp : pyStartswith path ("/v2/" ++ reg.repo ++ "/blobs/sha256:") = true) :
    is_manifest reg path = false := by
  rw [is_manifest]
  simp only [Bool.or_eq_false_iff, beq_eq_false_iff_ne]
  rw [pyStartswith] at hp
  have hpre := List.isPrefixOf_iff_prefix.mp hp
  constructor
  · intro e
    rw [e] at hpre
    simp only [String.data_append] at hpre
    rw [ List.prefix_append_right_inj] at hpre
    exact absurd hpre (by decide)
  · intro e
    rw [e] at hpre
    simp only [String.data_append] at hpre
    rw [List.append_assoc ("/v2/".data ++ reg.repo.data) "/manifests/".data
      reg.manifestDigest.data] at hpre
    rw [ List.prefix_append_right_inj] at hpre
    exact not_prefix_blobs_manifests reg.manifestDigest.data hpre

lemma isDigestForm_sha256_append_iff (s : String) :
    isDigestForm ("sha256:" ++ s) = isHex64 s := by
  rw [isDigestForm, String.data_append,
    show (7 : Nat) = "sha256:".data.length from rfl, List.drop_left,
    show List.isPrefixOf "sha256:".data ("sha256:".data ++ s.data) = true from
      List.isPrefixOf_iff_prefix.mpr (List.prefix_append _ _),
    Bool.true_and]

lemma send_blob_head_body (reg : Registry) (fs : String → String) (path : String) :
    send_blob reg fs true path = { send_blob reg fs false path with body := none } := by
  rw [send_blob, send_blob]
  split
  · rfl
  · split
    · rfl
    · split
      · cases hq : dictGet (lastSegment path) reg.blobs <;> simp [notFound]
      · simp [notFound]

/-! ## Claim theorems -/

/-- C1: for every input on which the builder succeeds, the registry digest
`_manifest_digest` is the string `sha256:` followed by the (abstract) sha256
hex digest of the canonical manifest bytes `_manifest_data`, and those bytes
are exactly the canonical serialization of the built manifest. -/
theorem c1_manifest_digest (fs rloc sha : String → String) (repo cp : String)
    (layers : List String) (reg : Registry)
    (h : build fs rloc sha repo cp layers = some reg) :
    reg.manifestDigest = "sha256:" ++ sha reg.manifestData ∧
    reg.manifestData = dumps (manifestJValue reg.config reg.layerRefs) := by
  rcases build_spec fs rloc sha repo cp layers reg h with ⟨-, hc, -, -, -, hm, hd⟩
  exact ⟨hd, by rw [hm, hc]⟩

/-- C1 witness at the concrete inputs `fsA`, `rlocA`, `shaA`. -/
theorem c1_witness :
    regA.manifestDigest = "sha256:" ++ shaA regA.manifestData ∧
    regA.manifestData = dumps (manifestJValue regA.config regA.layerRefs) :=
  c1_manifest_digest fsA rlocA shaA "r" "cfg" layersA regA rfl

/-- C2: manifest serialization is canonical and deterministic: `json.dumps`
of the manifest equals the spec template (compact separators, top-level keys
`schemaVersion`, `mediaType`, `config`, `layers` in order, every blob
reference rendered with keys `mediaType`, `digest`, `size` in order); the
built registry carries exactly those bytes; and two builds from the same
inputs serialize to byte-identical output. -/
theorem c2_canonical_serialization (config : BlobRef) (layers : List BlobRef)
    (fs rloc sha : String → String) (repo cp : String) (ls : List String)
    (r1 r2 : Registry)
    (h1 : build fs rloc sha repo cp ls = some r1)
    (h2 : build fs rloc sha repo cp ls = some r2) :
    dumps (manifestJValue config layers) = specManifestJson config layers ∧
    r1.manifestData = dumps (manifestJValue r1.config r1.layerRefs) ∧
    r1.manifestData = r2.manifestData := by
  refine ⟨dumps_manifestJValue config layers, ?_, ?_⟩
  · rcases build_spec fs rloc sha repo cp ls r1 h1 with ⟨-, hc, -, -, -, hm, -⟩
    rw [hm, hc]
  · rw [h1] at h2
    cases h2
    rfl

/-- C2 witness at the concrete inputs `fsA`, `rlocA`, `shaA`. -/
theorem c2_witness :
    dumps (manifestJValue ⟨CONFIG_MEDIA_TYPE, "sha256:c1", 2⟩ [⟨DIFF_MEDIA_TYPE, "sha256:d1", 4⟩]) =
      specManifestJson ⟨CONFIG_MEDIA_TYPE, "sha256:c1", 2⟩ [⟨DIFF_MEDIA_TYPE, "sha256:d1", 4⟩] ∧
    regA.manifestData = dumps (manifestJValue regA.config regA.layerRefs) ∧
    regA.manifestData = regA.manifestData :=
  c2_canonical_serialization _ _ fsA rlocA shaA "r" "cfg" layersA regA regA rfl rfl

/-- C3: every request (GET or HEAD) whose path starts with the blob route
`/v2/{repo}/blobs/sha256:` and whose final `/`-delimited segment is a key of
the blob dict is answered 200 with that blob entry's media type as
`Content-Type`, its recorded size as `Content-Length`, and — for GET only —
the on-disk content at the blob's stored location as body. -/
theorem c3_blob_route (reg : Registry) (fs : String → String) (head : Bool) (path : String)
    (e : BlobEntry)
    (hp : pyStartswith path ("/v2/" ++ reg.repo ++ "/blobs/sha256:") = true)
    (hb : dictGet (lastSegment path) reg.blobs = some e) :
    send_blob reg fs head path =
      ⟨200, some e.mediaType, some e.size, if head then none else some (fs e.path)⟩ := by
  rw [send_blob, if_neg (blobs_route_ne_root hp),
    if_neg (by rw [blobs_route_not_manifest reg path hp]; simp),
    if_pos hp, hb]

/-- C3 witness: the layer blob of `regA` served at its digest path. -/
theorem c3_witness :
    send_blob regA fsA false "/v2/r/blobs/sha256:d1" =
      ⟨200, some (⟨DIFF_MEDIA_TYPE, "l1", 4⟩ : BlobEntry).mediaType,
        some (⟨DIFF_MEDIA_TYPE, "l1", 4⟩ : BlobEntry).size,
        if false then none else some (fsA (⟨DIFF_MEDIA_TYPE, "l1", 4⟩ : BlobEntry).path)⟩ :=
  c3_blob_route regA fsA false "/v2/r/blobs/sha256:d1" ⟨DIFF_MEDIA_TYPE, "l1", 4⟩
    (by decide) (by decide)

/-- C4: for every path, HEAD and GET produce identical status and headers,
and a HEAD response never carries a body. -/
theorem c4_head_get (reg : Registry) (fs : String → String) (path : String) :
    (do_HEAD reg fs path).status = (do_GET reg fs path).status ∧
    (do_HEAD reg fs path).contentType = (do_GET reg fs path).contentType ∧
    (do_HEAD reg fs path).contentLength = (do_GET reg fs path).contentLength ∧
    (do_HEAD reg fs path).body = none := by
  rw [do_HEAD, do_GET, send_blob_head_body]
  exact ⟨rfl, rfl, rfl, rfl⟩

/-- C5: construction fails (the layer-pairing `assert`) whenever some
consumed `(digest_path, layer_path)` pair violates
`digest_path = layer_path ++ ".sha256"`. -/
theorem c5_layer_pairing (fs rloc sha : String → String) (repo cp : String)
    (layers : List String) (dp lp : String)
    (hmem : (dp, lp) ∈ zipPairs layers) (hne : dp ≠ lp ++ ".sha256") :
    build fs rloc sha repo cp layers = none := by
  rw [build, addLayers_bad fs rloc (zipPairs layers) dp lp hmem hne]

/-- C5 witness: a mispaired layer list is rejected. -/
theorem c5_witness : build fsA rlocA shaA "r" "cfg" ["bad", "l1"] = none :=
  c5_layer_pairing fsA rlocA shaA "r" "cfg" ["bad", "l1"] "bad" "l1" (by decide) (by decide)

/-- C6 (amended): every request that is not the version probe, not a manifest
route match and not a known blob digest is answered 404 with the
`send_error` headers; the HEAD body is empty while the GET body is the
standard library's default HTML error page. -/
theorem c6_not_found_amended (reg : Registry) (fs : String → String) (head : Bool) (path : String)
    (h1 : path ≠ "/v2/") (h2 : is_manifest reg path = false)
    (h3 : pyStartswith path ("/v2/" ++ reg.repo ++ "/blobs/sha256:") = true →
      dictGet (lastSegment path) reg.blobs = none) :
    send_blob reg fs head path =
      ⟨404, some errorContentType, some errorBody404.length,
        if head then none else some errorBody404⟩ := by
  rw [send_blob, if_neg h1, if_neg (by rw [h2]; simp)]
  by_cases hs : pyStartswith path ("/v2/" ++ reg.repo ++ "/blobs/sha256:") = true
  · rw [if_pos hs, h3 hs]
    rfl
  · rw [if_neg hs]
    rfl

/-- C6 witness: an unmatched path against the concrete registry `regA`. -/
theorem c6_witness :
    send_blob regA fsA false "/bogus" =
      ⟨404, some errorContentType, some errorBody404.length,
        if false then none else some errorBody404⟩ :=
  c6_not_found_amended regA fsA false "/bogus" (by decide) (by decide) (by decide)

/-- C6 counterexample to the claim as stated: a GET of an unmatched path is
answered 404 but its body is the default error page, not empty. -/
theorem c6_counterexample :
    (do_GET regA fsA "/nope").status = 404 ∧
    (do_GET regA fsA "/nope").body = some errorBody404 ∧
    (do_GET regA fsA "/nope").body ≠ none :=
  ⟨rfl, rfl, by decide⟩

/-- C7: every recorded size — in the blob dict and in the manifest config and
layer entries — is the byte length of the content at that blob's own location
at construction time, never a caller-supplied number; each manifest layer
entry's size is tied positionally to the content path of its own
`(digestPath, contentPath)` pair. -/
theorem c7_blob_sizes (fs rloc sha : String → String) (repo cp : String)
    (layers : List String) (reg : Registry)
    (h : build fs rloc sha repo cp layers = some reg) :
    (∀ q ∈ reg.blobs, q.2.size = (fs q.2.path).length) ∧
    reg.config.size = (fs (rloc cp)).length ∧
    reg.layerRefs.length = (zipPairs layers).length ∧
    (∀ i (hi : i < (zipPairs layers).length),
      reg.layerRefs[i]?.map BlobRef.size =
        some ((fs (rloc ((zipPairs layers).get ⟨i, hi⟩).2)).length)) := by
  rcases build_spec fs rloc sha repo cp layers reg h with ⟨-, hc, hl, hb, -, -, -⟩
  refine ⟨?_, by rw [hc]; rfl, by rw [hl, List.length_map], ?_⟩
  · intro q hq
    rcases hb q hq with h | ⟨p, hp, h⟩
    · rw [h]; rfl
    · rw [h]; rfl
  · intro i hi
    rw [hl, List.getElem?_map, List.getElem?_eq_getElem hi]
    rfl

/-- C7 witness at the concrete inputs `fsA`, `rlocA`, `shaA`. -/
theorem c7_witness :
    (∀ q ∈ regA.blobs, q.2.size = (fsA q.2.path).length) ∧
    regA.config.size = (fsA (rlocA "cfg")).length ∧
    regA.layerRefs.length = (zipPairs layersA).length ∧
    (∀ i (hi : i < (zipPairs layersA).length),
      regA.layerRefs[i]?.map BlobRef.size =
        some ((fsA (rlocA ((zipPairs layersA).get ⟨i, hi⟩).2)).length)) :=
  c7_blob_sizes fsA rlocA shaA "r" "cfg" layersA regA rfl

/-- C8: the manifest path referenced by the literal tag `latest` and the one
referenced by the exact manifest digest are both answered 200 with the
manifest media type, the byte length of the canonical manifest bytes, and
(GET only) the manifest bytes themselves — hence byte-identical bodies —
while any other reference value fails the manifest route match. -/
theorem c8_manifest_routes (reg : Registry) (fs : String → String) (head : Bool) :
    send_blob reg fs head ("/v2/" ++ reg.repo ++ "/manifests/latest") =
      ⟨200, some MANIFEST_MEDIA_TYPE, some reg.manifestData.length,
        if head then none else some reg.manifestData⟩ ∧
    send_blob reg fs head ("/v2/" ++ reg.repo ++ "/manifests/" ++ reg.manifestDigest) =
      ⟨200, some MANIFEST_MEDIA_TYPE, some reg.manifestData.length,
        if head then none else some reg.manifestData⟩ ∧
    (∀ reference : String, reference ≠ "latest" → reference ≠ reg.manifestDigest →
      is_manifest reg ("/v2/" ++ reg.repo ++ "/manifests/" ++ reference) = false) := by
  refine ⟨?_, ?_, ?_⟩
  · rw [send_blob, if_neg (manifests_latest_ne_root reg.repo),
      if_pos (by rw [is_manifest]; simp)]
  · rw [send_blob, if_neg (manifests_digest_ne_root reg.repo reg.manifestDigest),
      if_pos (by rw [is_manifest]; simp)]
  · intro reference hlat hdig
    rw [is_manifest]
    simp only [Bool.or_eq_false_iff, beq_eq_false_iff_ne]
    constructor
    · intro e
      apply hlat
      apply append_left_cancel' (s := "/v2/" ++ reg.repo ++ "/manifests/")
      rw [e, str_append_assoc ("/v2/" ++ reg.repo) "/manifests/" "latest"]
      exact congrArg (fun t => "/v2/" ++ reg.repo ++ t)
        (by decide : "/manifests/latest" = "/manifests/" ++ "latest")
    · intro e
      exact hdig (append_left_cancel' (s := "/v2/" ++ reg.repo ++ "/manifests/") e)

/-- C8 witness: the `latest` route of `regA`, and a mismatched reference. -/
theorem c8_witness :
    send_blob regA fsA false ("/v2/" ++ regA.repo ++ "/manifests/latest") =
      ⟨200, some MANIFEST_MEDIA_TYPE, some regA.manifestData.length,
        if false then none else some regA.manifestData⟩ ∧
    is_manifest regA ("/v2/" ++ regA.repo ++ "/manifests/" ++ "zzz") = false :=
  ⟨(c8_manifest_routes regA fsA false).1,
    (c8_manifest_routes regA fsA false).2.2 "zzz" (by decide) (by decide)⟩

/-- C9 (amended): every digest recorded by the builder comes verbatim from
the accompanying digest file: each blob-dict entry's key is `sha256:` plus
the contents of the digest file at the entry's own content path suffixed
with `.sha256`; the manifest config digest comes from the config digest
file; each manifest layer digest comes positionally from its own pair's
digest file.  The builder never hashes blob content — nothing in the
registry except the manifest digest depends on the hash function.  All
recorded digests have the form `sha256:` + 64 lowercase hex exactly when
every consumed digest file holds 64 lowercase hex characters. -/
theorem c9_digest_form_amended (fs rloc sha : String → String) (repo cp : String)
    (layers : List String) (reg : Registry)
    (h : build fs rloc sha repo cp layers = some reg) :
    (∀ q ∈ reg.blobs, ∃ bp, q.2.path = rloc bp ∧
      q.1 = "sha256:" ++ fs (rloc (bp ++ ".sha256"))) ∧
    reg.config.digest = "sha256:" ++ fs (rloc (cp ++ ".sha256")) ∧
    reg.layerRefs.length = (zipPairs layers).length ∧
    (∀ i (hi : i < (zipPairs layers).length),
      reg.layerRefs[i]?.map BlobRef.digest =
        some ("sha256:" ++ fs (rloc ((zipPairs layers).get ⟨i, hi⟩).1))) ∧
    (∀ sha' : String → String,
      (build fs rloc sha' repo cp layers).map
          (fun r => (r.repo, r.config, r.layerRefs, r.blobs, r.manifestData)) =
        (build fs rloc sha repo cp layers).map
          (fun r => (r.repo, r.config, r.layerRefs, r.blobs, r.manifestData))) ∧
    (((∀ q ∈ reg.blobs, isDigestForm q.1 = true) ∧
        isDigestForm reg.config.digest = true ∧
        (∀ r ∈ reg.layerRefs, isDigestForm r.digest = true)) ↔
      (isHex64 (fs (rloc (cp ++ ".sha256"))) = true ∧
        ∀ p ∈ zipPairs layers, isHex64 (fs (rloc p.1)) = true)) := by
  rcases build_spec fs rloc sha repo cp layers reg h with ⟨-, hcf, hlr, hb, hassert, -, -⟩
  refine ⟨?_, by rw [hcf]; rfl, by rw [hlr, List.length_map], ?_, ?_, ?_⟩
  · intro q hq
    rcases hb q hq with he | ⟨p, hp, he⟩
    · refine ⟨cp, by rw [he]; rfl, by rw [he]; rfl⟩
    · refine ⟨p.2, by rw [he]; rfl, ?_⟩
      rw [he]
      show "sha256:" ++ fs (rloc p.1) = "sha256:" ++ fs (rloc (p.2 ++ ".sha256"))
      rw [hassert p hp]
  · intro i hi
    rw [hlr, List.getElem?_map, List.getElem?_eq_getElem hi]
    rfl
  · intro sha'
    simp only [build]
    cases hx : addLayers fs rloc (zipPairs layers) []
        (blobStep fs CONFIG_MEDIA_TYPE (rloc cp) (rloc (cp ++ ".sha256")) []).2 with
    | none => rfl
    | some out => cases out; rfl
  · constructor
    · rintro ⟨-, hcfg, hlay⟩
      constructor
      · rw [← isDigestForm_sha256_append_iff]
        have h2 := hcfg
        rw [hcf] at h2
        exact h2
      · intro p hp
        rw [← isDigestForm_sha256_append_iff]
        have hmem : layerRefOf fs rloc p ∈ reg.layerRefs := by
          rw [hlr]
          exact List.mem_map_of_mem _ hp
        exact hlay _ hmem
    · rintro ⟨hhc, hhl⟩
      refine ⟨?_, ?_, ?_⟩
      · intro q hq
        rcases hb q hq with he | ⟨p, hp, he⟩
        · rw [he]
          show isDigestForm ("sha256:" ++ fs (rloc (cp ++ ".sha256"))) = true
          rw [isDigestForm_sha256_append_iff]
          exact hhc
        · rw [he]
          show isDigestForm ("sha256:" ++ fs (rloc p.1)) = true
          rw [isDigestForm_sha256_append_iff]
          exact hhl p hp
      · rw [hcf]
        show isDigestForm ("sha256:" ++ fs (rloc (cp ++ ".sha256"))) = true
        rw [isDigestForm_sha256_append_iff]
        exact hhc
      · intro r hr
        rw [hlr] at hr
        rcases List.mem_map.mp hr with ⟨p, hp, hpr⟩
        rw [← hpr]
        show isDigestForm ("sha256:" ++ fs (rloc p.1)) = true
        rw [isDigestForm_sha256_append_iff]
        exact hhl p hp

/-- C9 witness at the concrete inputs `fsB`, `rlocA`, `shaA`. -/
theorem c9_witness :
    (∀ q ∈ regB.blobs, ∃ bp, q.2.path = rlocA bp ∧
      q.1 = "sha256:" ++ fsB (rlocA (bp ++ ".sha256"))) ∧
    regB.config.digest = "sha256:" ++ fsB (rlocA ("cfg" ++ ".sha256")) ∧
    regB.layerRefs.length = (zipPairs layersA).length ∧
    (∀ i (hi : i < (zipPairs layersA).length),
      regB.layerRefs[i]?.map BlobRef.digest =
        some ("sha256:" ++ fsB (rlocA ((zipPairs layersA).get ⟨i, hi⟩).1))) ∧
    (∀ sha' : String → String,
      (build fsB rlocA sha' "r" "cfg" layersA).map
          (fun r => (r.repo, r.config, r.layerRefs, r.blobs, r.manifestData)) =
        (build fsB rlocA shaA "r" "cfg" layersA).map
          (fun r => (r.repo, r.config, r.layerRefs, r.blobs, r.manifestData))) ∧
    (((∀ q ∈ regB.blobs, isDigestForm q.1 = true) ∧
        isDigestForm regB.config.digest = true ∧
        (∀ r ∈ regB.layerRefs, isDigestForm r.digest = true)) ↔
      (isHex64 (fsB (rlocA ("cfg" ++ ".sha256"))) = true ∧
        ∀ p ∈ zipPairs layersA, isHex64 (fsB (rlocA p.1)) = true)) :=
  c9_digest_form_amended fsB rlocA shaA "r" "cfg" layersA regB rfl

/-- C9 counterexample to the claim as stated: a digest file holding `zz`
produces the recorded digest `sha256:zz`, which is not `sha256:` followed by
64 lowercase hex characters — the builder records digest-file contents
verbatim without validation. -/
theorem c9_counterexample :
    (build fsZ rlocA shaZ "r" "c" []).map
        (fun reg => reg.blobs.map (fun q => isDigestForm q.1)) = some [false] ∧
    ¬ ∀ reg, build fsZ rlocA shaZ "r" "c" [] = some reg →
        ∀ q ∈ reg.blobs, isDigestForm q.1 = true :=
  ⟨rfl, fun hall =>
    absurd (hall regZ rfl ("sha256:zz", ⟨CONFIG_MEDIA_TYPE, "c", 2⟩) (by decide)) (by decide)⟩

/-- C10: an odd-length flat layer list does not fail on the unpaired trailing
element: the build equals the build on the list without its last element,
and a successful build holds exactly `⌊n/2⌋` layer pairs. -/
theorem c10_odd_layers (fs rloc sha : String → String) (repo cp : String) (layers : List String)
    (hodd : layers.length % 2 = 1) :
    build fs rloc sha repo cp layers = build fs rloc sha repo cp layers.dropLast ∧
    (∀ reg, build fs rloc sha repo cp layers = some reg →
      reg.layerRefs.length = layers.length / 2) := by
  constructor
  · exact build_congr_pairs fs rloc sha repo cp (zipPairs_dropLast_odd layers hodd)
  · intro reg h
    rcases build_spec fs rloc sha repo cp layers reg h with ⟨-, -, hlr, -⟩
    rw [hlr, List.length_map, zipPairs_length]

/-- C10 witness: a three-element layer list. -/
theorem c10_witness :
    (build fsA rlocA shaA "r" "cfg" ["l1.sha256", "l1", "stray"] =
      build fsA rlocA shaA "r" "cfg" (["l1.sha256", "l1", "stray"].dropLast)) ∧
    (∀ reg, build fsA rlocA shaA "r" "cfg" ["l1.sha256", "l1", "stray"] = some reg →
      reg.layerRefs.length = ["l1.sha256", "l1", "stray"].length / 2) :=
  c10_odd_layers fsA rlocA shaA "r" "cfg" ["l1.sha256", "l1", "stray"] (by decide)

end RegistryTool
